import Mathlib

/-!
Verification of the pocketbase-starter-frontend flow-controller core.

The definitions below are a shallow embedding of the client-side logic:

* `validateToken` embeds the Token Inspector
  (`src/app/confirm-email-change/page.tsx`, `validateToken`);
* `onOtpSubmit` / `handleResendOtp` embed the Challenge-Response Controller
  (the login form's OTP handlers);
* `initCountdown` / `resendButtonEnabled` embed the Verification Resend
  Throttle (`src/app/verify-email/page.tsx`);
* `rpOnSubmit` embeds the password-reset confirmation submit handler
  (`src/app/reset-password/page.tsx`);
* `ceOnSubmit` embeds the email-change confirmation submit handler
  (`src/app/confirm-email-change/page.tsx`).

Event handlers are embedded as pure state transformers: each takes the
component state together with the outcome the external backend call would
resolve to, and returns the new component state plus the list of network
calls the handler performed.  JavaScript truthiness of nullable strings and
numbers is made explicit through `truthyS` and `truthyI`.
-/

/-- `splitDots cs` splits a character list at every dot, keeping empty
segments, exactly as the JavaScript `"…".split(".")` does for the
one-character separator used by the source. -/
def splitDots : List Char → List (List Char)
  | [] => [[]]
  | c :: rest =>
    let r := splitDots rest
    if c = '.' then [] :: r
    else
      match r with
      | [] => [[c]]
      | h :: t => (c :: h) :: t

/-- `jsSplitDot s` embeds the JavaScript `s.split(".")`. -/
def jsSplitDot (s : String) : List String :=
  (splitDots s.toList).map (fun cs => String.mk cs)

/-- JavaScript truthiness of a nullable string: `null`/absent and the empty
string are falsy, every other string is truthy. -/
def truthyS : Option String → Bool
  | none => false
  | some s => !(s == "")

/-- JavaScript truthiness of a nullable number: `null`/absent and `0` are
falsy. -/
def truthyI : Option Int → Bool
  | none => false
  | some n => !(n == 0)

/-- `matchesAt pat cs`: `pat` occurs at the head of `cs`. -/
def matchesAt : List Char → List Char → Bool
  | [], _ => true
  | _ :: _, [] => false
  | p :: ps, c :: cs => p == c && matchesAt ps cs

/-- `containsSub pat cs`: `pat` occurs contiguously somewhere in `cs`. -/
def containsSub (pat : List Char) : List Char → Bool
  | [] => pat.isEmpty
  | c :: cs => matchesAt pat (c :: cs) || containsSub pat cs

/-- Embeds the JavaScript `s.includes(pat)`. -/
def strIncludes (s pat : String) : Bool :=
  containsSub pat.toList s.toList

/-- The JSON object decoded from the middle token segment, restricted to the
fields the page reads (`TokenData` in `confirm-email-change/page.tsx`).
`none` models an absent field; an empty string / `0` model the remaining
falsy field values. -/
structure JsonPayload where
  collectionId : Option String := none
  email : Option String := none
  exp : Option Int := none
  id : Option String := none
  newEmail : Option String := none
  type : Option String := none
deriving Repr, DecidableEq

/-- The return shape of `validateToken`:
`{ valid: boolean; data?: TokenData; error?: string }`. -/
structure TokenCheck where
  valid : Bool
  data : Option JsonPayload := none
  error : Option String := none
deriving Repr, DecidableEq

/-- The disjunction guarding the `"Invalid token structure"` branch:
`!payload.type || payload.type !== "emailChange" || !payload.email ||
!payload.newEmail || !payload.exp`. -/
def structBad (p : JsonPayload) : Bool :=
  !(truthyS p.type) || p.type != some "emailChange" || !(truthyS p.email) ||
    !(truthyS p.newEmail) || !(truthyI p.exp)

/-- The positive form of the structural check: every required claim is
present and truthy and the purpose is exactly `"emailChange"`. -/
def structOk (p : JsonPayload) : Bool :=
  !(structBad p)

/-- Embedding of `validateToken` from `src/app/confirm-email-change/page.tsx`.

`decode` stands for `(s) => JSON.parse(atob(s))` applied to the middle
segment: `none` when that expression throws (the `catch` branch, which the
source reports as `"Token validation failed"`), `some payload` when it
yields an object, whose relevant fields are read through `JsonPayload`.
`nowSec` stands for `Math.floor(Date.now() / 1000)`. -/
def validateToken (decode : String → Option JsonPayload) (nowSec : Int)
    (token : String) : TokenCheck :=
  let parts := jsSplitDot token
  if parts.length != 3 then
    ⟨false, none, some "Invalid token format"⟩
  else
    match decode (parts.getD 1 "") with
    | none => ⟨false, none, some "Token validation failed"⟩
    | some payload =>
      if structBad payload then
        ⟨false, none, some "Invalid token structure"⟩
      else if payload.exp.getD 0 < nowSec then
        ⟨false, some payload, some "Token expired"⟩
      else
        ⟨true, some payload, none⟩

/-- Outcome of a backend SDK call, as the handlers classify it:
a `ClientResponseError` carrying its `message`, or any other thrown value. -/
inductive SdkError where
  | clientResponse (message : String)
  | other
deriving Repr, DecidableEq

/-- A network call performed by one of the login-form OTP handlers. -/
inductive NetCall where
  | authWithOTP (otpId code : String)
  | requestOTP (email : String)
deriving Repr, DecidableEq

/-- The login form state relevant to the OTP (Challenge-Response) flow. -/
structure LoginState where
  error : Option String := none
  showOtpForm : Bool := false
  otpId : Option String := none
  userEmail : String := ""
  isLoadingOtp : Bool := false
deriving Repr, DecidableEq

/-- The message `onOtpSubmit` surfaces in its `catch` branch. -/
def otpFailureMessage : SdkError → String
  | .clientResponse m => m
  | .other => "An unexpected error occurred. Please try again."

/-- The message `handleResendOtp` surfaces in its `catch` branch. -/
def resendFailureMessage : SdkError → String
  | .clientResponse m => m
  | .other => "Failed to resend verification code. Please try again."

/-- Embedding of `onOtpSubmit` (login form).  `result` is the outcome the
`authWithOTP` call resolves to; when `otpId` is not truthy the handler
returns before any network call. -/
def onOtpSubmit (s : LoginState) (code : String)
    (result : Except SdkError Unit) : LoginState × List NetCall :=
  if !(truthyS s.otpId) then
    ({ s with error := some "Authentication error. Please try again." }, [])
  else
    let oid := s.otpId.getD ""
    match result with
    | .ok _ =>
      ({ s with error := none, isLoadingOtp := false }, [.authWithOTP oid code])
    | .error e =>
      ({ s with error := some (otpFailureMessage e), isLoadingOtp := false },
        [.authWithOTP oid code])

/-- Embedding of `handleResendOtp` (login form).  `result` is the outcome of
the `requestOTP` call: on success it carries the fresh `otpId`.  When
`userEmail` is empty the handler returns before any network call. -/
def handleResendOtp (s : LoginState) (result : Except SdkError String) :
    LoginState × List NetCall :=
  if s.userEmail == "" then
    (s, [])
  else
    match result with
    | .ok newId =>
      ({ s with error := none, otpId := some newId, isLoadingOtp := false },
        [.requestOTP s.userEmail])
    | .error e =>
      ({ s with error := some (resendFailureMessage e), isLoadingOtp := false },
        [.requestOTP s.userEmail])

/-- `RESEND_COOLDOWN` from `src/app/verify-email/page.tsx` (seconds). -/
def RESEND_COOLDOWN : Int := 30

/-- Embedding of the mount-time countdown initialization in
`src/app/verify-email/page.tsx` (lines 26-39): from the persisted
`lastVerificationEmailSent` millisecond timestamp and the current
`Date.now()`, compute the countdown the page starts with.  `Int.fdiv`
matches the `Math.floor` division; when no time remains the countdown state
keeps its initial `0`. -/
def initCountdown (nowMs lastSentMs : Int) : Int :=
  let elapsedSeconds := Int.fdiv (nowMs - lastSentMs) 1000
  let remainingSeconds := RESEND_COOLDOWN - elapsedSeconds
  if remainingSeconds > 0 then remainingSeconds else 0

/-- The resend button's enabled state:
`disabled={isResending || isRefreshing || countdown > 0}` negated. -/
def resendButtonEnabled (isResending isRefreshing : Bool) (countdown : Int) :
    Bool :=
  !(isResending || isRefreshing || decide (countdown > 0))

/-- The reset-password page status values. -/
inductive RpStatus where
  | idle | loading | success | error
deriving Repr, DecidableEq

/-- The reset-password page state relevant to submission. -/
structure RpState where
  status : RpStatus := .idle
  message : String := ""
  isSubmitting : Bool := false
deriving Repr, DecidableEq

/-- Embedding of `onSubmit` in `src/app/reset-password/page.tsx`.  `token`
is the `?token=` query parameter (`none` when absent); `result` is the
outcome of `confirmPasswordReset`. -/
def rpOnSubmit (token : Option String) (s : RpState)
    (result : Except SdkError Unit) : RpState :=
  if !(truthyS token) then
    { s with status := .error,
             message := "Reset token is missing. Please check your email link." }
  else
    match result with
    | .ok _ =>
      { s with isSubmitting := false, status := .success,
               message := "Your password has been reset successfully!" }
    | .error (.clientResponse m) =>
      { s with isSubmitting := false, status := .error, message := m }
    | .error .other =>
      { s with isSubmitting := false, status := .error,
               message := "An unexpected error occurred. Please try again." }

/-- The reset form is rendered whenever `status !== "success"`. -/
def rpFormVisible (s : RpState) : Bool :=
  s.status != .success

/-- The reset submit button:
`disabled={isSubmitting || status === "error" || !token}` negated. -/
def rpSubmitEnabled (token : Option String) (s : RpState) : Bool :=
  !(s.isSubmitting || s.status == .error || !(truthyS token))

/-- The confirm-email-change page status values. -/
inductive CeStatus where
  | loading | password | success | error
deriving Repr, DecidableEq

/-- The confirm-email-change page error subtypes. -/
inductive CeErrorType where
  | invalid | expired | password | other
deriving Repr, DecidableEq

/-- The confirm-email-change page state relevant to submission. -/
structure CeState where
  status : CeStatus := .loading
  errorType : Option CeErrorType := none
  message : String := ""
  isSubmitting : Bool := false
  passwordError : Option String := none
deriving Repr, DecidableEq

/-- A `ClientResponseError` as the email-change handler inspects it:
HTTP status, `message`, and `response?.data?.password?.message`. -/
structure PbError where
  status : Int
  message : String
  passwordFieldMessage : Option String := none
deriving Repr, DecidableEq

/-- The password-error classification in the email-change `catch` branch:
`error.status === 400 && (error.message.includes("password") ||
error.message.includes("Password") || error.response?.data?.password?.message)`. -/
def isPasswordError (e : PbError) : Bool :=
  e.status == 400 &&
    (strIncludes e.message "password" || strIncludes e.message "Password" ||
      truthyS e.passwordFieldMessage)

/-- Embedding of `onSubmit` in `src/app/confirm-email-change/page.tsx`.
`token` is the `?token=` query parameter; `result` the outcome of
`confirmEmailChange`. -/
def ceOnSubmit (token : Option String) (s : CeState)
    (result : Except PbError Unit) : CeState :=
  if !(truthyS token) then
    { s with status := .error, errorType := some .invalid,
             message := "Email change token is missing. Please check your email link." }
  else
    match result with
    | .ok _ =>
      { s with isSubmitting := false, passwordError := none,
               status := .success,
               message := "Your email has been successfully changed!" }
    | .error e =>
      if isPasswordError e then
        { s with isSubmitting := false,
                 passwordError := some "Incorrect password. Please try again." }
      else
        { s with isSubmitting := false, passwordError := none,
                 status := .error, errorType := some .other,
                 message := "Failed to change your email. Please try again or contact support." }

/-- The password form is rendered exactly when `status === "password"`. -/
def ceFormVisible (s : CeState) : Bool :=
  s.status == .password

/-- A concrete decoded payload with every required claim present and
`exp = 100`. -/
def wPayload : JsonPayload :=
  { collectionId := some "users", email := some "old@example.com",
    exp := some 100, id := some "rec1", newEmail := some "new@example.com",
    type := some "emailChange" }

/-- A concrete decode oracle: the middle segment `"py"` decodes to
`wPayload`, everything else throws. -/
def wDecode : String → Option JsonPayload :=
  fun s => if s == "py" then some wPayload else none

/-- A concrete decoded payload that is missing `newEmail` and is also long
past expiry (`exp = 50`). -/
def wBadPayload : JsonPayload :=
  { email := some "old@example.com", exp := some 50,
    type := some "emailChange" }

/-- A concrete decode oracle for `wBadPayload`. -/
def wBadDecode : String → Option JsonPayload :=
  fun s => if s == "pb" then some wBadPayload else none

/-- A concrete login state holding a pre-resend challenge id. -/
def staleResendState : LoginState :=
  { showOtpForm := true, otpId := some "old-otp",
    userEmail := "user@example.com" }

/-- A concrete login state in the OTP step with no held challenge id. -/
def noChallengeState : LoginState :=
  { showOtpForm := true, userEmail := "user@example.com" }

/-- A concrete login state in the OTP step holding challenge id `otp-1`. -/
def wOtpState : LoginState :=
  { showOtpForm := true, otpId := some "otp-1",
    userEmail := "user@example.com" }

/-- A concrete backend error classified as a wrong-password failure:
HTTP 400 with a `password` field message in the response data. -/
def wPwError : PbError :=
  { status := 400, message := "Failed to authenticate.",
    passwordFieldMessage := some "Invalid password." }

/-- A concrete backend error for an invalid-or-expired email-change token:
HTTP 400 with no password-related content. -/
def wTokenError : PbError :=
  { status := 400, message := "Invalid or expired token." }

/-- Unfolding lemma: when the token does not have exactly three
dot-separated segments, `validateToken` reports the format failure. -/
theorem validateToken_notThree (decode : String → Option JsonPayload)
    (nowSec : Int) (token : String) (h3 : (jsSplitDot token).length ≠ 3) :
    validateToken decode nowSec token =
      ⟨false, none, some "Invalid token format"⟩ := by
  have hb : ((jsSplitDot token).length != 3) = true := by simp [h3]
  simp only [validateToken, hb, if_true]

/-- Unfolding lemma: with three segments but a middle segment on which the
decode throws, `validateToken` reports the caught-exception failure. -/
theorem validateToken_decodeFail (decode : String → Option JsonPayload)
    (nowSec : Int) (token : String) (h3 : (jsSplitDot token).length = 3)
    (hd : decode ((jsSplitDot token).getD 1 "") = none) :
    validateToken decode nowSec token =
      ⟨false, none, some "Token validation failed"⟩ := by
  have hb : ((jsSplitDot token).length != 3) = false := by simp [h3]
  simp only [validateToken, hb, Bool.false_eq_true, if_false, hd]

/-- Unfolding lemma: with three segments and a decoded payload,
`validateToken` reduces to the structure check followed by the expiry
check. -/
theorem validateToken_decoded (decode : String → Option JsonPayload)
    (nowSec : Int) (token : String) (p : JsonPayload)
    (h3 : (jsSplitDot token).length = 3)
    (hdec : decode ((jsSplitDot token).getD 1 "") = some p) :
    validateToken decode nowSec token =
      if structBad p then ⟨false, none, some "Invalid token structure"⟩
      else if p.exp.getD 0 < nowSec then
        ⟨false, some p, some "Token expired"⟩
      else ⟨true, some p, none⟩ := by
  have hb : ((jsSplitDot token).length != 3) = false := by simp [h3]
  simp only [validateToken, hb, Bool.false_eq_true, if_false, hdec]

/-- Claim C1 (counterexample): the resend handler does not invalidate the
held challenge id before or during a failed resend.  From a state holding
challenge id old-otp, a resend whose network call fails leaves the held
challenge id equal to the pre-resend id, and a subsequent verify submits
the old id together with the entered code, contrary to the claim that after
a resend completes (successfully or not) the held id is never the
pre-resend id. -/
theorem resend_failure_keeps_old_challenge_id :
    (handleResendOtp staleResendState (.error .other)).1.otpId = some "old-otp" ∧
    staleResendState.otpId = some "old-otp" ∧
    (onOtpSubmit (handleResendOtp staleResendState (.error .other)).1 "123456"
        (.ok ())).2 = [NetCall.authWithOTP "old-otp" "123456"] := by
  decide

/-- Claim C1 (amended): a resend does not discard the held challenge id
first; on a successful resend the held id is replaced by the fresh id only
when the response arrives, and on a failed resend the pre-resend challenge
id remains held, so a code for the pre-resend challenge is still submitted
against that old id by a later verify. -/
theorem handleResendOtp_replaces_only_on_success (s : LoginState)
    (r : Except SdkError String) (h : s.userEmail ≠ "") :
    (∀ newId, r = .ok newId → (handleResendOtp s r).1.otpId = some newId) ∧
    (∀ e, r = .error e → (handleResendOtp s r).1.otpId = s.otpId) ∧
    (∀ e code r2, r = .error e → truthyS s.otpId = true →
      (onOtpSubmit (handleResendOtp s r).1 code r2).2 =
        [NetCall.authWithOTP (s.otpId.getD "") code]) := by
  have he : (s.userEmail == "") = false := by simp [h]
  refine ⟨?_, ?_, ?_⟩
  · intro newId hr
    subst hr
    simp [handleResendOtp, he]
  · intro e hr
    subst hr
    simp [handleResendOtp, he]
  · intro e code r2 hr ht
    subst hr
    rcases r2 with _ | e2 <;> simp [handleResendOtp, he, onOtpSubmit, ht]

/-- Claim C1 (witness): concrete instances of the amended claim, for a
successful resend carrying fresh id otp-2 and for a failed resend. -/
theorem handleResendOtp_replaces_only_on_success_witness :
    wOtpState.userEmail ≠ "" ∧
    (handleResendOtp wOtpState (.ok "otp-2")).1.otpId = some "otp-2" ∧
    (handleResendOtp wOtpState (.error .other)).1.otpId = wOtpState.otpId :=
  ⟨by decide,
    (handleResendOtp_replaces_only_on_success wOtpState (.ok "otp-2")
      (by decide)).1 "otp-2" rfl,
    (handleResendOtp_replaces_only_on_success wOtpState (.error .other)
      (by decide)).2.1 .other rfl⟩

/-- Claim C2 (counterexample): a well-formed token whose exp claim equals
the current time is classified as valid, not Expired, because the source
compares with strict less-than (payload.exp < now). -/
theorem token_exp_equal_now_is_valid :
    wPayload.exp = some 100 ∧ structOk wPayload = true ∧
    (validateToken wDecode 100 "h.py.s").valid = true ∧
    (validateToken wDecode 100 "h.py.s").error ≠ some "Token expired" := by
  decide

/-- Claim C2 (amended): for every syntactically well-formed token whose
required claims all pass the structural check, an expiry strictly before
the current time yields the Expired failure together with the decoded
claims, while the boundary case exp equal to now is classified as valid. -/
theorem validateToken_expiry_strict (decode : String → Option JsonPayload)
    (nowSec : Int) (token : String) (p : JsonPayload)
    (h3 : (jsSplitDot token).length = 3)
    (hdec : decode ((jsSplitDot token).getD 1 "") = some p)
    (hok : structOk p = true) :
    (p.exp.getD 0 < nowSec →
      validateToken decode nowSec token = ⟨false, some p, some "Token expired"⟩) ∧
    (p.exp.getD 0 = nowSec →
      validateToken decode nowSec token = ⟨true, some p, none⟩) := by
  have hb : structBad p = false := by simpa [structOk] using hok
  constructor
  · intro hlt
    rw [validateToken_decoded decode nowSec token p h3 hdec,
      if_neg (by simp [hb]), if_pos hlt]
  · intro heq
    rw [validateToken_decoded decode nowSec token p h3 hdec,
      if_neg (by simp [hb]), if_neg (by omega)]

/-- Claim C2 (witness): the amended claim at a concrete token, once with the
clock one second past expiry and once exactly at expiry. -/
theorem validateToken_expiry_strict_witness :
    (jsSplitDot "h.py.s").length = 3 ∧
    wDecode ((jsSplitDot "h.py.s").getD 1 "") = some wPayload ∧
    structOk wPayload = true ∧
    validateToken wDecode 101 "h.py.s" =
      ⟨false, some wPayload, some "Token expired"⟩ ∧
    validateToken wDecode 100 "h.py.s" = ⟨true, some wPayload, none⟩ :=
  ⟨by decide, by decide, by decide,
    (validateToken_expiry_strict wDecode 101 "h.py.s" wPayload (by decide)
      (by decide) (by decide)).1 (by decide),
    (validateToken_expiry_strict wDecode 100 "h.py.s" wPayload (by decide)
      (by decide) (by decide)).2 (by decide)⟩

/-- Claim C3: with a 30 second window and a recorded send at millisecond
time T, the countdown computed from persisted state at T plus 10 seconds is
20 and the resend button is disabled; at any time from T plus 30 seconds on
the button is enabled; and reinitializing from the persisted timestamp
resumes at 20, not at the full 30. -/
theorem resend_throttle_countdown (T : Int) :
    initCountdown (T + 10000) T = 20 ∧
    resendButtonEnabled false false (initCountdown (T + 10000) T) = false ∧
    (∀ t : Int, T + 30000 ≤ t →
      resendButtonEnabled false false (initCountdown t T) = true) ∧
    initCountdown (T + 10000) T ≠ RESEND_COOLDOWN := by
  have e1 : T + 10000 - T = 10000 := by ring
  have h20 : initCountdown (T + 10000) T = 20 := by
    simp only [initCountdown, e1]
    decide
  refine ⟨h20, by rw [h20]; decide, ?_, by rw [h20]; decide⟩
  intro t ht
  have hfd : Int.fdiv (t - T) 1000 = (t - T) / 1000 :=
    Int.fdiv_eq_ediv _ (by norm_num)
  have h30 : (30 : Int) ≤ Int.fdiv (t - T) 1000 := by
    rw [hfd]; omega
  simp only [initCountdown, RESEND_COOLDOWN, resendButtonEnabled]
  have hcond : ¬((30 : Int) - Int.fdiv (t - T) 1000 > 0) := by omega
  rw [if_neg hcond]
  decide

/-- Claim C3 (witness): the throttle claim at T equal to 0, with the
enabled-after-window part instantiated at t equal to 31000. -/
theorem resend_throttle_countdown_witness :
    initCountdown (0 + 10000) 0 = 20 ∧
    resendButtonEnabled false false (initCountdown (0 + 10000) 0) = false ∧
    ((0 : Int) + 30000 ≤ 31000 ∧
      resendButtonEnabled false false (initCountdown 31000 0) = true) ∧
    initCountdown (0 + 10000) 0 ≠ RESEND_COOLDOWN :=
  ⟨(resend_throttle_countdown 0).1, (resend_throttle_countdown 0).2.1,
    ⟨by norm_num, (resend_throttle_countdown 0).2.2.1 31000 (by norm_num)⟩,
    (resend_throttle_countdown 0).2.2.2⟩

/-- Claim C4 (counterexample): after the password-reset confirmation fails
with a server error while a token is present, the form is still rendered
but the submit button is disabled, so resubmitting is not possible. -/
theorem rp_server_error_not_reenterable :
    rpSubmitEnabled (some "tok")
      (rpOnSubmit (some "tok") { status := .idle } (.error .other)) = false ∧
    rpFormVisible (rpOnSubmit (some "tok") { status := .idle } (.error .other)) =
      true := by
  decide

/-- Claim C4 (amended): when the password-reset confirmation submission
fails with a server error and a token is present, the page enters the error
status; the form remains visible, but the submit button is disabled
whenever the status is error, so the screen is not re-enterable by
resubmission. -/
theorem rp_server_error_locks_form (t : String) (ht : truthyS (some t) = true)
    (s : RpState) (e : SdkError) :
    (rpOnSubmit (some t) s (.error e)).status = .error ∧
    rpFormVisible (rpOnSubmit (some t) s (.error e)) = true ∧
    rpSubmitEnabled (some t) (rpOnSubmit (some t) s (.error e)) = false := by
  rcases e with m | _ <;>
    simp [rpOnSubmit, rpFormVisible, rpSubmitEnabled, ht]

/-- Claim C4 (witness): the amended claim at a concrete token and error. -/
theorem rp_server_error_locks_form_witness :
    truthyS (some "tok") = true ∧
    ((rpOnSubmit (some "tok") { status := .idle } (.error .other)).status = .error ∧
      rpFormVisible (rpOnSubmit (some "tok") { status := .idle } (.error .other)) =
        true ∧
      rpSubmitEnabled (some "tok")
        (rpOnSubmit (some "tok") { status := .idle } (.error .other)) = false) :=
  ⟨by decide, rp_server_error_locks_form "tok" (by decide) { status := .idle } .other⟩

/-- Claim C5: in the email-change confirmation flow, a wrong-password
failure leaves the page in its current (password-entry) status and only
adds the password error message, so the form stays shown, whereas any
failure not classified as a password error (such as an invalid-or-expired
token) transitions the page to the terminal error status. -/
theorem ce_password_error_keeps_form (t : String) (ht : truthyS (some t) = true)
    (s : CeState) (e : PbError) :
    (isPasswordError e = true →
      ceOnSubmit (some t) s (.error e) =
        { s with isSubmitting := false,
                 passwordError := some "Incorrect password. Please try again." }) ∧
    (isPasswordError e = true → (ceOnSubmit (some t) s (.error e)).status = s.status) ∧
    (isPasswordError e = true → s.status = .password →
      ceFormVisible (ceOnSubmit (some t) s (.error e)) = true) ∧
    (isPasswordError e = false → (ceOnSubmit (some t) s (.error e)).status = .error ∧
      (ceOnSubmit (some t) s (.error e)).errorType = some .other) := by
  refine ⟨?_, ?_, ?_, ?_⟩
  · intro hp
    simp [ceOnSubmit, ht, hp]
  · intro hp
    simp [ceOnSubmit, ht, hp]
  · intro hp hs
    simp [ceOnSubmit, ceFormVisible, ht, hp, hs]
  · intro hp
    simp [ceOnSubmit, ht, hp]

/-- Claim C5 (witness): a concrete wrong-password error keeps the page on
the password status, while a concrete invalid-or-expired-token error moves
it to the error status. -/
theorem ce_password_error_keeps_form_witness :
    truthyS (some "tok") = true ∧
    isPasswordError wPwError = true ∧
    isPasswordError wTokenError = false ∧
    (ceOnSubmit (some "tok") { status := .password } (.error wPwError)).status =
      CeStatus.password ∧
    (ceOnSubmit (some "tok") { status := .password } (.error wTokenError)).status =
      CeStatus.error :=
  ⟨by decide, by decide, by decide,
    (ce_password_error_keeps_form "tok" (by decide) { status := .password }
      wPwError).2.1 (by decide),
    ((ce_password_error_keeps_form "tok" (by decide) { status := .password }
      wTokenError).2.2.2 (by decide)).1⟩

/-- Claim C6: submitting a verification code while no challenge id is held
fails locally with the state error message and performs no network call. -/
theorem otp_verify_without_challenge (s : LoginState) (code : String)
    (r : Except SdkError Unit) (h : truthyS s.otpId = false) :
    onOtpSubmit s code r =
      ({ s with error := some "Authentication error. Please try again." }, []) := by
  simp [onOtpSubmit, h]

/-- Claim C6 (witness): the no-challenge claim at a concrete state. -/
theorem otp_verify_without_challenge_witness :
    truthyS noChallengeState.otpId = false ∧
    onOtpSubmit noChallengeState "123456" (.ok ()) =
      ({ noChallengeState with
          error := some "Authentication error. Please try again." }, []) :=
  ⟨by decide,
    otp_verify_without_challenge noChallengeState "123456" (.ok ()) (by decide)⟩

/-- Claim C7: every failed verify attempt with a held challenge id leaves
the challenge id and the OTP-form visibility unchanged, surfaces the
classified error message, and submitted exactly the held id with the
entered code. -/
theorem otp_verify_failure_retains_challenge (s : LoginState) (code : String)
    (e : SdkError) (h : truthyS s.otpId = true) :
    (onOtpSubmit s code (.error e)).1.otpId = s.otpId ∧
    (onOtpSubmit s code (.error e)).1.showOtpForm = s.showOtpForm ∧
    (onOtpSubmit s code (.error e)).1.error = some (otpFailureMessage e) ∧
    (onOtpSubmit s code (.error e)).2 =
      [NetCall.authWithOTP (s.otpId.getD "") code] := by
  simp [onOtpSubmit, h]

/-- Claim C7 (witness): the retry claim at a concrete state and a concrete
backend invalid-code error. -/
theorem otp_verify_failure_retains_challenge_witness :
    truthyS wOtpState.otpId = true ∧
    ((onOtpSubmit wOtpState "999999"
        (.error (.clientResponse "Invalid code."))).1.otpId = wOtpState.otpId ∧
      (onOtpSubmit wOtpState "999999"
          (.error (.clientResponse "Invalid code."))).1.showOtpForm =
        wOtpState.showOtpForm ∧
      (onOtpSubmit wOtpState "999999"
          (.error (.clientResponse "Invalid code."))).1.error =
        some (otpFailureMessage (.clientResponse "Invalid code.")) ∧
      (onOtpSubmit wOtpState "999999"
          (.error (.clientResponse "Invalid code."))).2 =
        [NetCall.authWithOTP (wOtpState.otpId.getD "") "999999"]) :=
  ⟨by decide,
    otp_verify_failure_retains_challenge wOtpState "999999"
      (.clientResponse "Invalid code.") (by decide)⟩

/-- Claim C8: every input without exactly three dot-separated segments, and
every three-segment input whose middle segment does not decode, yields a
bare failure with no decoded claims; the source realises the Malformed
verdict of the specification as either the explicit format error or the
caught decode-exception error. -/
theorem validateToken_malformed (decode : String → Option JsonPayload)
    (nowSec : Int) (token : String)
    (h : (jsSplitDot token).length ≠ 3 ∨
      decode ((jsSplitDot token).getD 1 "") = none) :
    (validateToken decode nowSec token).valid = false ∧
    (validateToken decode nowSec token).data = none ∧
    ((validateToken decode nowSec token).error = some "Invalid token format" ∨
     (validateToken decode nowSec token).error = some "Token validation failed") := by
  by_cases h3 : (jsSplitDot token).length = 3
  · rcases h with h | hdec
    · exact absurd h3 h
    · rw [validateToken_decodeFail decode nowSec token h3 hdec]
      exact ⟨rfl, rfl, Or.inr rfl⟩
  · rw [validateToken_notThree decode nowSec token h3]
    exact ⟨rfl, rfl, Or.inl rfl⟩

/-- Claim C8 (witness): the malformed claim at the one-segment input ab. -/
theorem validateToken_malformed_witness :
    (jsSplitDot "ab").length ≠ 3 ∧
    ((validateToken wDecode 0 "ab").valid = false ∧
      (validateToken wDecode 0 "ab").data = none ∧
      ((validateToken wDecode 0 "ab").error = some "Invalid token format" ∨
       (validateToken wDecode 0 "ab").error = some "Token validation failed")) :=
  ⟨by decide, validateToken_malformed wDecode 0 "ab" (Or.inl (by decide))⟩

/-- Claim C9: the token inspector is total: it is a pure function of the
input string, the decode outcome and the clock, and on every input it
returns exactly one of the typed verdicts: valid with claims, or a failure
tagged format, validation-failed, structure, or expired. -/
theorem validateToken_total (decode : String → Option JsonPayload)
    (nowSec : Int) (token : String) :
    ((validateToken decode nowSec token).valid = true ∧
      (validateToken decode nowSec token).error = none ∧
      (validateToken decode nowSec token).data.isSome = true) ∨
    ((validateToken decode nowSec token).valid = false ∧
      ((validateToken decode nowSec token).error = some "Invalid token format" ∨
       (validateToken decode nowSec token).error = some "Token validation failed" ∨
       (validateToken decode nowSec token).error = some "Invalid token structure" ∨
       (validateToken decode nowSec token).error = some "Token expired")) := by
  by_cases h3 : (jsSplitDot token).length = 3
  · rcases hd : decode ((jsSplitDot token).getD 1 "") with _ | p
    · rw [validateToken_decodeFail decode nowSec token h3 hd]
      exact Or.inr ⟨rfl, Or.inr (Or.inl rfl)⟩
    · rw [validateToken_decoded decode nowSec token p h3 hd]
      by_cases hb : structBad p = true
      · rw [if_pos hb]
        exact Or.inr ⟨rfl, Or.inr (Or.inr (Or.inl rfl))⟩
      · rw [if_neg (by simpa using hb)]
        by_cases hexp : p.exp.getD 0 < nowSec
        · rw [if_pos hexp]
          exact Or.inr ⟨rfl, Or.inr (Or.inr (Or.inr rfl))⟩
        · rw [if_neg hexp]
          exact Or.inl ⟨rfl, rfl, rfl⟩
  · rw [validateToken_notThree decode nowSec token h3]
    exact Or.inr ⟨rfl, Or.inl rfl⟩

/-- Claim C10: for a three-segment token with a decoded payload, the
structural check precedes the expiry check and is strict: whenever the
payload fails the structural check the result is the structure failure with
no claims (regardless of the clock, so an expired payload missing a field
never reports Expired); an exp claim of 0 fails the structural check; and
passing the structural check requires type emailChange and truthy email,
newEmail and exp. -/
theorem validateToken_structure_precedes_expiry
    (decode : String → Option JsonPayload) (nowSec : Int) (token : String)
    (p : JsonPayload) (h3 : (jsSplitDot token).length = 3)
    (hdec : decode ((jsSplitDot token).getD 1 "") = some p) :
    (structOk p = false →
      validateToken decode nowSec token =
        ⟨false, none, some "Invalid token structure"⟩) ∧
    (p.exp = some 0 → structOk p = false) ∧
    (structOk p = true →
      p.type = some "emailChange" ∧ truthyS p.email = true ∧
        truthyS p.newEmail = true ∧ truthyI p.exp = true) := by
  refine ⟨?_, ?_, ?_⟩
  · intro hbad
    have hb : structBad p = true := by simpa [structOk] using hbad
    rw [validateToken_decoded decode nowSec token p h3 hdec, if_pos hb]
  · intro hz
    simp [structOk, structBad, hz, truthyI]
  · intro hok
    have hb : structBad p = false := by simpa [structOk] using hok
    simp only [structBad, Bool.or_eq_false_iff, Bool.not_eq_false',
      bne_eq_false_iff_eq] at hb
    exact ⟨hb.1.1.1.2, hb.1.1.2, hb.1.2, hb.2⟩

/-- Claim C10 (witness): a payload missing newEmail that is also long past
expiry reports the structure failure, with the clock well past its exp. -/
theorem validateToken_structure_precedes_expiry_witness :
    (jsSplitDot "h.pb.s").length = 3 ∧
    wBadDecode ((jsSplitDot "h.pb.s").getD 1 "") = some wBadPayload ∧
    structOk wBadPayload = false ∧
    wBadPayload.exp = some 50 ∧
    validateToken wBadDecode 1000 "h.pb.s" =
      ⟨false, none, some "Invalid token structure"⟩ :=
  ⟨by decide, by decide, by decide, by decide,
    (validateToken_structure_precedes_expiry wBadDecode 1000 "h.pb.s"
      wBadPayload (by decide) (by decide)).1 (by decide)⟩
